import Mathlib

/-!
Verification of the janitor runner/publisher control plane.

This file is a shallow embedding, in Lean 4, of the parts of
`src/janitor/runner.py` and `src/janitor/publish.py` that the
specification's claims are about: the per-maintainer rate limiters, the
publish-decision pipeline, the proposal reconciler step, the queue
processor (host backoff, finish path), the active-run watchdog and the
keepalive/finish HTTP handlers, and the `splitout_env` command helper.

Time is modelled as integer seconds.  Python dictionaries are modelled as
association lists with overwrite-on-assignment semantics.  Python
exceptions that the code raises and catches are modelled with
`Except`/`Option`; an uncaught Python runtime error (`TypeError`,
`AttributeError`) is modelled as an explicit error value, since the real
handler would surface it as a 500 instead of its documented response.
-/

namespace Janitor

/-- Dictionary lookup (`d.get(k)`): first binding wins; `setA` keeps at most
one binding per key, so the association list behaves like a Python dict. -/
def lookupA {α : Type} (l : List (String × α)) (k : String) : Option α :=
  (l.find? (fun p => p.1 == k)).map (fun p => p.2)

/-- Dictionary assignment (`d[k] = v`). -/
def setA {α : Type} : List (String × α) → String → α → List (String × α)
  | [], k, v => [(k, v)]
  | (k2, v2) :: rest, k, v =>
    if k2 == k then (k, v) :: rest else (k2, v2) :: setA rest k v

/-- `d.get(k, 0)` for a counter dictionary. -/
def getCount (l : List (String × Nat)) (k : String) : Nat :=
  (lookupA l k).getD 0

/-- Python `x or d` for an optional integer (`None` and `0` are falsy). -/
def pyOrNat (x : Option Nat) (d : Nat) : Nat :=
  match x with
  | none => d
  | some n => if n = 0 then d else n

section RateLimiters

/-!
### Rate limiters (`src/janitor/publish.py`)

`RateLimited` exceptions are modelled as `Except String Unit`:
`.error msg` means `check_allowed` raised `RateLimited(msg)`,
`.ok ()` means it returned normally.
-/

/-- `True` when a call to `check_allowed` raised `RateLimited`. -/
def isDenied : Except String Unit → Bool
  | .error _ => true
  | .ok _ => false

/-- State of `MaintainerRateLimiter`: the configured
`max_mps_per_maintainer` (`None` when not passed) and
`_open_mps_per_maintainer` (`None` until `set_mps_per_maintainer` runs). -/
structure MaintainerRateLimiter where
  max_mps_per_maintainer : Option Nat
  open_mps_per_maintainer : Option (List (String × Nat))
  deriving Repr, DecidableEq

/-- `MaintainerRateLimiter.check_allowed` (publish.py lines 120-130).
Returns immediately when the configured maximum is falsy (`None` or `0`);
raises while the per-maintainer counts are not yet loaded; otherwise raises
exactly when the count is strictly greater than the maximum. -/
def MaintainerRateLimiter.check_allowed (rl : MaintainerRateLimiter)
    (maintainer_email : String) : Except String Unit :=
  match rl.max_mps_per_maintainer with
  | none => .ok ()
  | some n =>
    if n = 0 then .ok ()
    else
      match rl.open_mps_per_maintainer with
      | none => .error "Open mps per maintainer not yet determined."
      | some m =>
        if getCount m maintainer_email > n then
          .error "Maintainer already has merge proposals open (max)"
        else .ok ()

/-- `MaintainerRateLimiter.inc` (publish.py lines 132-136). -/
def MaintainerRateLimiter.inc (rl : MaintainerRateLimiter)
    (maintainer_email : String) : MaintainerRateLimiter :=
  match rl.open_mps_per_maintainer with
  | none => rl
  | some m =>
    let m2 := setA m maintainer_email (getCount m maintainer_email + 1)
    { rl with open_mps_per_maintainer := some m2 }

/-- State of `SlowStartRateLimiter`: the optional absolute maximum and the
open/merged maps, both `None` until `set_mps_per_maintainer` runs. -/
structure SlowStartRateLimiter where
  max_mps_per_maintainer : Option Nat
  open_mps_per_maintainer : Option (List (String × Nat))
  merged_mps_per_maintainer : Option (List (String × Nat))
  deriving Repr, DecidableEq

/-- `SlowStartRateLimiter.check_allowed` (publish.py lines 158-173).
Raises while either map is unloaded; otherwise raises when the maximum is
truthy and `current >= max`, or when `current > merged + 1`. -/
def SlowStartRateLimiter.check_allowed (rl : SlowStartRateLimiter)
    (email : String) : Except String Unit :=
  match rl.open_mps_per_maintainer, rl.merged_mps_per_maintainer with
  | some openm, some mergedm =>
    let current := getCount openm email
    let firstDenies :=
      match rl.max_mps_per_maintainer with
      | none => false
      | some n => decide (n ≠ 0 ∧ current ≥ n)
    if firstDenies then
      .error "Maintainer already has merge proposals open (absmax)"
    else
      let limit := getCount mergedm email + 1
      if current > limit then
        .error "Maintainer has merge proposals open (current cap)"
      else .ok ()
  | _, _ => .error "Open mps per maintainer not yet determined."

end RateLimiters

section RateLimiterTheorems

/-- Claim C3 counterexample: with a configured cap of 5 and loaded counts in
which maintainer `alice` has exactly 5 open proposals, the claimed behaviour
is that `check_allowed` disallows (5 ≥ 5), but the code allows: the
comparison in the source is strict (`current > max`). -/
theorem maintainer_cap_allows_at_cap :
    isDenied (MaintainerRateLimiter.check_allowed
      ⟨some 5, some [("alice", 5)]⟩ "alice") = false ∧ 5 ≥ 5 := by
  constructor
  · rfl
  · decide

/-- Claim C3 (amended): with a configured nonzero cap N and loaded
open-proposal counts, `MaintainerRateLimiter.check_allowed` raises
`RateLimited` exactly for the maintainers whose current open count is
strictly greater than N. -/
theorem maintainer_cap_denies_iff (n : Nat) (hn : 0 < n)
    (counts : List (String × Nat)) (email : String) :
    isDenied (MaintainerRateLimiter.check_allowed
      ⟨some n, some counts⟩ email) = true ↔ getCount counts email > n := by
  unfold MaintainerRateLimiter.check_allowed
  simp only
  rw [if_neg (Nat.pos_iff_ne_zero.mp hn)]
  by_cases h : getCount counts email > n
  · simp [h, isDenied]
  · simp [h, isDenied]

/-- Witness for `maintainer_cap_denies_iff` at N = 2, count 3. -/
theorem maintainer_cap_denies_iff_witness :
    isDenied (MaintainerRateLimiter.check_allowed
      ⟨some 2, some [("alice", 3)]⟩ "alice") = true :=
  (maintainer_cap_denies_iff 2 (by decide) [("alice", 3)] "alice").mpr
    (by decide)

/-- Claim C8: under `SlowStartRateLimiter` with a nonzero cap N and loaded
per-maintainer open and merged counts, `check_allowed` raises `RateLimited`
iff the open count is at least N or exceeds the merged count plus one; and
while either count map is still unloaded it always denies. -/
theorem slowstart_check_allowed_spec (n : Nat) (hn : 0 < n)
    (openm mergedm : List (String × Nat)) (email : String) :
    (isDenied (SlowStartRateLimiter.check_allowed
        ⟨some n, some openm, some mergedm⟩ email) = true ↔
      (getCount openm email ≥ n ∨
        getCount openm email > getCount mergedm email + 1)) ∧
    isDenied (SlowStartRateLimiter.check_allowed
      ⟨some n, none, none⟩ email) = true ∧
    isDenied (SlowStartRateLimiter.check_allowed
      ⟨some n, some openm, none⟩ email) = true ∧
    isDenied (SlowStartRateLimiter.check_allowed
      ⟨some n, none, some mergedm⟩ email) = true := by
  refine ⟨?_, rfl, rfl, rfl⟩
  unfold SlowStartRateLimiter.check_allowed
  simp only
  have hne : n ≠ 0 := Nat.pos_iff_ne_zero.mp hn
  by_cases h1 : getCount openm email ≥ n
  · simp [hne, h1, isDenied]
  · by_cases h2 : getCount openm email > getCount mergedm email + 1
    · simp [hne, h1, h2, isDenied]
    · simp [hne, h1, h2, isDenied]

/-- Witness for `slowstart_check_allowed_spec`: N = 3, `bob` has 2 open and
0 merged proposals, so 2 > 0 + 1 and the slow-start check denies. -/
theorem slowstart_check_allowed_spec_witness :
    isDenied (SlowStartRateLimiter.check_allowed
      ⟨some 3, some [("bob", 2)], some []⟩ "bob") = true :=
  ((slowstart_check_allowed_spec 3 (by decide) [("bob", 2)] [] "bob").1).mpr
    (by decide)

end RateLimiterTheorems

section PublishPipeline

/-!
### The publish decision pipeline (`publish.py`, `publish_from_policy`)

`publish_one` forks a subprocess; its observable outcome (a
`PublishFailure` or a `(proposal_url, branch_name, is_new)` triple) is an
input to the embedded pipeline.  `state.already_published` and
`state.store_publish` live in the (absent) `state` module; they are
modelled from the spec as, respectively, a boolean input and the
`stored` field of the produced effects.
-/

/-- Mode constant `MODE_SKIP` (publish.py line 64). -/
def MODE_SKIP : String := "skip"

/-- Mode constant `MODE_BUILD_ONLY` (publish.py line 65). -/
def MODE_BUILD_ONLY : String := "build-only"

/-- Mode constant `MODE_PUSH` (publish.py line 66). -/
def MODE_PUSH : String := "push"

/-- Mode constant `MODE_PUSH_DERIVED` (publish.py line 67). -/
def MODE_PUSH_DERIVED : String := "push-derived"

/-- Mode constant `MODE_PROPOSE` (publish.py line 68). -/
def MODE_PROPOSE : String := "propose"

/-- Mode constant `MODE_ATTEMPT_PUSH` (publish.py line 69). -/
def MODE_ATTEMPT_PUSH : String := "attempt-push"

/-- Does `small` occur as a leading run of `big`? (helper for substring
containment, used to model Python's `in` on strings). -/
def leadsWith : List Char → List Char → Bool
  | [], _ => true
  | _ :: _, [] => false
  | a :: as, b :: bs => a == b && leadsWith as bs

/-- Does `needle` occur contiguously inside `hay`? -/
def containsSeq (needle : List Char) : List Char → Bool
  | [] => leadsWith needle []
  | c :: rest => leadsWith needle (c :: rest) || containsSeq needle rest

/-- Python `needle in hay` for strings. -/
def strContains (hay needle : String) : Bool :=
  containsSeq needle.toList hay.toList

/-- Python truthiness of an optional string (`None` and `""` are falsy). -/
def pyStrTruthy : Option String → Bool
  | none => false
  | some s => s != ""

/-- Python truthiness of an optional bool (`None` is falsy). -/
def pyBoolTruthy : Option Bool → Bool
  | none => false
  | some b => b

/-- A row written by `state.store_publish`.
Modelled from the spec: the publish attempt record carries the package,
branch name, mode, code, description and optional proposal URL. -/
structure StoredPublish where
  package : String
  branch_name : Option String
  mode : String
  code : String
  description : String
  proposal_url : Option String
  deriving Repr, DecidableEq

/-- Observable outcome of the `publish_one` subprocess call: either the
decoded success triple or a `PublishFailure` with code and description. -/
inductive PublishOneOutcome
  | ok (proposal_url : Option String) (branch_name : Option String)
      (is_new : Option Bool)
  | failed (code : String) (description : String)
  deriving Repr, DecidableEq

/-- Externally visible effects of one `publish_from_policy` call:
how often `proposal_rate_limited_count` was incremented, the publish row
handed to `state.store_publish` (if any), and whether `rate_limiter.inc`
was called. -/
structure PublishEffects where
  rate_limited_inc : Nat
  stored : Option StoredPublish
  limiter_inc : Bool
  deriving Repr, DecidableEq

/-- `publish_from_policy` (publish.py lines 280-336), as a function from
its branch-relevant inputs to its externally visible effects.
`check_allowed_result` is what `rate_limiter.check_allowed(maintainer_email)`
did; `already_published` is the `state.already_published` answer. -/
def publish_from_policy (check_allowed_result : Except String Unit)
    (already_published : Bool) (publish_one_outcome : PublishOneOutcome)
    (pkg : String) (branch_name : Option String) (main_branch_url : String)
    (mode : String) : PublishEffects :=
  if mode == MODE_BUILD_ONLY || mode == MODE_SKIP then ⟨0, none, false⟩
  else if already_published then ⟨0, none, false⟩
  else
    let step1 : Nat × String :=
      if mode == MODE_PROPOSE || mode == MODE_ATTEMPT_PUSH then
        match check_allowed_result with
        | .error _ => (1, MODE_BUILD_ONLY)
        | .ok _ => (0, mode)
      else (0, mode)
    let inc1 := step1.1
    let mode1 := step1.2
    let mode2 :=
      if mode1 == MODE_ATTEMPT_PUSH &&
          strContains main_branch_url "salsa.debian.org/debian/" then
        MODE_PROPOSE
      else mode1
    if mode2 == MODE_BUILD_ONLY || mode2 == MODE_SKIP then ⟨inc1, none, false⟩
    else
      match publish_one_outcome with
      | .failed c d => ⟨inc1, some ⟨pkg, none, mode2, c, d, none⟩, false⟩
      | .ok purl bn isnew =>
        let doInc := pyStrTruthy purl && pyBoolTruthy isnew
        let storedUrl := if pyStrTruthy purl then purl else none
        ⟨inc1, some ⟨pkg, bn, mode2, "success", "Success", storedUrl⟩, doInc⟩

end PublishPipeline

section PublishPipelineTheorems

/-- Claim C2 counterexample: a scheduled `propose` for which the rate
limiter raises `RateLimited` increments the counter and degrades the mode,
but then hits the early return: no publish row at all is stored — in
particular none with mode `build-only`. -/
theorem publish_rate_limited_stores_nothing :
    (publish_from_policy (.error "rate limited") false
      (.ok none none none) "pkg" (some "br") "https://example.com/p"
      MODE_PROPOSE) = ⟨1, none, false⟩ := by
  rfl

/-- Claim C2 (amended): in `publish_from_policy`, when the rate limiter
raises `RateLimited` for a scheduled `propose` (mode in
{propose, attempt-push}) that is not already published, the
`proposal_rate_limited` counter is incremented and the mode is degraded to
build-only, upon which the function returns early: no publish row is
stored and the limiter is not incremented. -/
theorem publish_rate_limited_degrades_to_build_only (err : String)
    (out : PublishOneOutcome) (pkg : String) (bn : Option String)
    (url : String) (mode : String)
    (hm : mode = MODE_PROPOSE ∨ mode = MODE_ATTEMPT_PUSH) :
    publish_from_policy (.error err) false out pkg bn url mode =
      ⟨1, none, false⟩ := by
  rcases hm with h | h <;> subst h <;> rfl

/-- Witness for `publish_rate_limited_degrades_to_build_only` at mode
`attempt-push`. -/
theorem publish_rate_limited_degrades_to_build_only_witness :
    publish_from_policy (.error "limit") false (.failed "x" "y") "p" none
      "https://salsa.debian.org/debian/p" MODE_ATTEMPT_PUSH =
      ⟨1, none, false⟩ :=
  publish_rate_limited_degrades_to_build_only "limit" (.failed "x" "y") "p"
    none "https://salsa.debian.org/debian/p" MODE_ATTEMPT_PUSH (Or.inr rfl)

end PublishPipelineTheorems

section Reconciler

/-!
### The proposal reconciler (`publish.py`, `check_existing`)

One iteration of the `for hoster, mp, status in iter_all_mps()` loop body,
as a function from the loop inputs (the proposal's URL and observed
status, the database lookups, the conflict probe, the outcome of a
refreshing `publish_one` call) to the list of externally visible actions
it performs.  The per-maintainer tallies, which only feed the rate-limiter
refresh after the loop, are elided.
-/

/-- Row of `state.get_proposal_info`.
Modelled from the spec: the merge-proposal index stores status, last
observed revision, package and maintainer. -/
structure ProposalInfo where
  revision : Option String
  status : Option String
  package : Option String
  maintainer_email : Option String
  deriving Repr, DecidableEq

/-- The run metadata the reconciler reads (`get_merge_proposal_run` /
`get_last_unabsorbed_run` rows).
Modelled from the spec: a run row with id, package, suite, branch name
and result code.  Runs are compared by id. -/
structure MPRunLite where
  id : String
  package : String
  suite : String
  branch_name : Option String
  result_code : String
  deriving Repr, DecidableEq

/-- An externally visible action of the reconciler loop body. -/
inductive CEAction
  | setProposalInfo (url : String) (status : String) (revision : Option String)
      (package : Option String) (merged_by : Option String)
  | publishMPEvent (url : String) (status : String) (package : Option String)
  | closeMP (url : String)
  | storePublishRow (row : StoredPublish)
  | addToQueue (package : String) (suite : String) (offset : Int)
      (refresh : Bool) (requestor : String)
  deriving Repr, DecidableEq

/-- Is this action the `mp.close()` call? -/
def CEAction.isClose : CEAction → Bool
  | .closeMP _ => true
  | _ => false

/-- The status written by a `set_proposal_info` action, if any. -/
def CEAction.statusWritten : CEAction → Option String
  | .setProposalInfo _ st _ _ _ => some st
  | _ => none

/-- `check_existing.update_proposal_status` (publish.py lines 575-586):
one `set_proposal_info` write followed by one merge-proposal event;
`merged_by` is only consulted when the new status is `merged`. -/
def update_proposal_status (url status : String) (revision : Option String)
    (package_name : Option String) (merged_by_hoster : Option String) :
    List CEAction :=
  let merged_by := if status == "merged" then merged_by_hoster else none
  [.setProposalInfo url status revision package_name merged_by,
   .publishMPEvent url status package_name]

/-- Resolution of `(revision, old_status, package_name, maintainer_email)`
in the loop body (publish.py lines 590-613): `get_proposal_info` result
when present, else the source-branch revision probe; a missing maintainer
is recovered through `get_package_by_branch_url`, which on failure forces
`package_name` to `None`. -/
def resolveProposalMeta (info : Option ProposalInfo)
    (source_branch_revision : Option String)
    (package_by_branch_url : Option (String × String)) :
    Option String × Option String × Option String × Option String :=
  let base : Option String × Option String × Option String × Option String :=
    match info with
    | some i => (i.revision, i.status, i.package, i.maintainer_email)
    | none => (source_branch_revision, none, none, none)
  match base.2.2.2 with
  | some em => (base.1, base.2.1, base.2.2.1, some em)
  | none =>
    match package_by_branch_url with
    | none => (base.1, base.2.1, none, none)
    | some (nm, em) => (base.1, base.2.1, some nm, some em)

/-- The loop body after metadata resolution (publish.py lines 614-679). -/
def check_existing_decide (url status : String) (revision : Option String)
    (old_status package_name : Option String)
    (merged_by_hoster : Option String)
    (mp_run last_run : Option MPRunLite) (conflicted : Option Bool)
    (publish_outcome : PublishOneOutcome) : List CEAction × Bool :=
  let lede :=
    if old_status != some status then
      update_proposal_status url status revision package_name merged_by_hoster
    else []
  if status != "open" then (lede, false)
  else
    match mp_run with
    | none => (lede, false)
    | some run =>
      match last_run with
      | none =>
        (lede ++ update_proposal_status url "closed" revision package_name
          merged_by_hoster ++ [.closeMP url], false)
      | some lr =>
        if lr.result_code != "success" && lr.result_code != "nothing-to-do"
        then (lede, false)
        else if lr.id != run.id then
          match publish_outcome with
          | .failed c d =>
            (lede ++ [.storePublishRow
              ⟨lr.package, lr.branch_name, MODE_PROPOSE, c, d, some url⟩],
             false)
          | .ok purl bn isnew =>
            (lede ++ [.storePublishRow
              ⟨lr.package, bn, MODE_PROPOSE, "success",
               "Succesfully updated", purl⟩],
             pyBoolTruthy isnew)
        else
          match conflicted with
          | some true =>
            (lede ++ [.addToQueue run.package run.suite (-2) true
              "publisher"], false)
          | _ => (lede, false)

/-- One full iteration of the `check_existing` loop body: resolve the
proposal metadata, then act on the observed status. -/
def check_existing_step (url status : String) (info : Option ProposalInfo)
    (source_branch_revision : Option String)
    (package_by_branch_url : Option (String × String))
    (merged_by_hoster : Option String)
    (mp_run last_run : Option MPRunLite) (conflicted : Option Bool)
    (publish_outcome : PublishOneOutcome) : List CEAction × Bool :=
  let meta := resolveProposalMeta info source_branch_revision
    package_by_branch_url
  check_existing_decide url status meta.1 meta.2.1 meta.2.2.1
    merged_by_hoster mp_run last_run conflicted publish_outcome

end Reconciler

section ReconcilerTheorems

/-- Helper for claim C9: after metadata resolution, an open proposal with
reconciler metadata but no last unabsorbed run is closed exactly once,
its stored status ends at `closed`, and a `closed` event is published. -/
theorem check_existing_decide_closes (url : String)
    (rev old pkg mbh : Option String) (run : MPRunLite)
    (conf : Option Bool) (pub : PublishOneOutcome) :
    (((check_existing_decide url "open" rev old pkg mbh (some run) none conf
        pub).1.filter CEAction.isClose).length = 1) ∧
    ((check_existing_decide url "open" rev old pkg mbh (some run) none conf
        pub).1.filterMap CEAction.statusWritten).getLast? = some "closed" ∧
    (∃ p, CEAction.publishMPEvent url "closed" p ∈
      (check_existing_decide url "open" rev old pkg mbh (some run) none conf
        pub).1) ∧
    CEAction.closeMP url ∈
      (check_existing_decide url "open" rev old pkg mbh (some run) none conf
        pub).1 := by
  unfold check_existing_decide update_proposal_status
  by_cases h : old = some "open"
  · subst h
    simp [CEAction.isClose, CEAction.statusWritten]
  · have h2 : (old != some "open") = true := by
      simp [bne, h]
    simp [h2, CEAction.isClose, CEAction.statusWritten]

/-- Claim C9: during reconciliation (`check_existing`), an open merge
proposal whose `(package, suite)` has no last unabsorbed run has its
stored status transitioned to `closed` via `set_proposal_info`, a
merge-proposal event is published with the new status, and `mp.close()`
is called exactly once. -/
theorem reconciler_closes_absorbed_proposal (url : String)
    (info : Option ProposalInfo) (sbr : Option String)
    (pbu : Option (String × String)) (mbh : Option String)
    (run : MPRunLite) (conf : Option Bool) (pub : PublishOneOutcome) :
    (((check_existing_step url "open" info sbr pbu mbh (some run) none conf
        pub).1.filter CEAction.isClose).length = 1) ∧
    ((check_existing_step url "open" info sbr pbu mbh (some run) none conf
        pub).1.filterMap CEAction.statusWritten).getLast? = some "closed" ∧
    (∃ p, CEAction.publishMPEvent url "closed" p ∈
      (check_existing_step url "open" info sbr pbu mbh (some run) none conf
        pub).1) ∧
    CEAction.closeMP url ∈
      (check_existing_step url "open" info sbr pbu mbh (some run) none conf
        pub).1 := by
  unfold check_existing_step
  exact check_existing_decide_closes url _ _ _ mbh run conf pub

end ReconcilerTheorems

section RunnerModel

/-!
### The runner (`src/janitor/runner.py`)
-/

/-- A queue row.
Modelled from the spec for the absent `state` module: id, package, suite,
command (optionally prefixed by `K=V` env pairs), context, branch URL,
vcs type, subpath and refresh flag. -/
structure QueueItem where
  id : Nat
  package : String
  suite : String
  command : String
  context : Option String
  branch_url : Option String
  vcs_type : Option String
  subpath : Option String
  refresh : Bool
  deriving Repr, DecidableEq

/-- The `JanitorResult` fields the verified paths observe. -/
structure JanitorResultLite where
  package : String
  suite : String
  log_id : String
  code : String
  description : Option String
  branch_url : Option String
  vcs_type : Option String
  worker_name : Option String
  logfilenames : List String
  main_branch_revision : Option String
  start_time : Option Int
  finish_time : Option Int
  deriving Repr, DecidableEq

/-- The `ActiveRun` fields the verified paths observe (runner.py lines
651-780). -/
structure ActiveRunLite where
  queue_item : QueueItem
  worker_name : String
  log_id : String
  start_time : Int
  last_keepalive : Int
  main_branch_url : Option String
  vcs_type : Option String
  deriving Repr, DecidableEq

/-- `ActiveRun.KEEPALIVE_INTERVAL` (runner.py line 653): `60 * 10`
seconds. -/
def KEEPALIVE_INTERVAL : Nat := 60 * 10

/-- `ActiveRun.reset_keepalive` (runner.py lines 703-704). -/
def ActiveRunLite.reset_keepalive (ar : ActiveRunLite) (now : Int) :
    ActiveRunLite :=
  { ar with last_keepalive := now }

/-- `ActiveRun.create_result` (runner.py lines 750-759): a
`JanitorResult` populated from the active run plus the caller's keyword
arguments.  Built without a worker result, so `main_branch_revision` is
`None` and both timestamps are real (`start_time` of the run,
`datetime.utcnow()`). -/
def ActiveRunLite.create_result (ar : ActiveRunLite) (now : Int)
    (branch_url vcs_type : Option String) (code : String)
    (description : Option String) : JanitorResultLite :=
  { package := ar.queue_item.package, suite := ar.queue_item.suite,
    log_id := ar.log_id, code := code, description := description,
    branch_url := branch_url, vcs_type := vcs_type,
    worker_name := some ar.worker_name, logfilenames := [],
    main_branch_revision := none,
    start_time := some ar.start_time, finish_time := some now }

/-- One iteration of `ActiveRun.watchdog` (runner.py lines 717-736):
sleep `KEEPALIVE_INTERVAL` seconds (advancing the clock from `t`), then
compare `now - last_keepalive` with `2 * KEEPALIVE_INTERVAL`; on excess
synthesize a `worker-timeout` result and call
`queue_processor.finish_run(self, result)` (line 735) — handing over the
`ActiveRun` object itself, not its queue item.  The returned pair is
exactly the two arguments of that call; otherwise do nothing. -/
def ActiveRunLite.watchdog_iteration (ar : ActiveRunLite) (t : Int) :
    Int × Option (ActiveRunLite × JanitorResultLite) :=
  let now := t + (KEEPALIVE_INTERVAL : Int)
  let duration := now - ar.last_keepalive
  if duration > 2 * (KEEPALIVE_INTERVAL : Int) then
    (now, some (ar,
      ar.create_result now ar.queue_item.branch_url ar.queue_item.vcs_type
        "worker-timeout" (some "No keepalives received.")))
  else (now, none)

/-- Does a token contain `'='`? (Python `'=' in args[0]`). -/
def hasEq (s : String) : Bool := s.toList.contains '='

/-- Python `token.split('=', 1)` for a token: the part before the first
`'='` and the part after it. -/
def splitFirstEq (s : String) : String × String :=
  let cs := s.toList
  (String.mk (cs.takeWhile (fun c => c != '=')),
   String.mk ((cs.dropWhile (fun c => c != '=')).drop 1))

/-- The `while` loop of `splitout_env`: pop leading `'='`-containing
tokens off the front, entering each into the env dict. -/
def collectEnv : List String → List (String × String) →
    List (String × String) × List String
  | [], env => (env, [])
  | a :: rest, env =>
    if hasEq a then
      collectEnv rest (setA env (splitFirstEq a).1 (splitFirstEq a).2)
    else (env, a :: rest)

/-- `splitout_env` (runner.py lines 887-893), parameterized by the
`shlex.split` / `shlex_join` pair, which are Python library functions
treated as abstract tokenization here. -/
def splitout_env (shlex_split : String → List String)
    (shlex_join : List String → String) (command : String) :
    List (String × String) × String :=
  let args := shlex_split command
  let step := collectEnv args []
  (step.1, shlex_join step.2)

end RunnerModel

section RunnerBasicTheorems

/-- The loop of `splitout_env` consumes exactly the maximal leading run of
`'='`-containing tokens, folding them into the env dict, and leaves the
rest. -/
theorem collectEnv_eq (args : List String) (env : List (String × String)) :
    collectEnv args env =
      ((args.takeWhile hasEq).foldl
        (fun e a => setA e (splitFirstEq a).1 (splitFirstEq a).2) env,
       args.dropWhile hasEq) := by
  induction args generalizing env with
  | nil => simp [collectEnv]
  | cons a rest ih =>
    by_cases h : hasEq a
    · simp [collectEnv, h, List.takeWhile_cons, List.dropWhile_cons, ih]
    · simp [collectEnv, h, List.takeWhile_cons, List.dropWhile_cons]

/-- Claim C10: for every command string, `splitout_env` tokenizes it and
moves each token in the maximal leading run of `'='`-containing tokens
into the returned env dict, each split at its first `'='`; the returned
command is the join of exactly the remaining tokens, so every
`'='`-containing token preceding the first `'='`-free token is dropped
from the command handed to the worker. -/
theorem splitout_env_spec (shlex_split : String → List String)
    (shlex_join : List String → String) (command : String) :
    (splitout_env shlex_split shlex_join command).1 =
      ((shlex_split command).takeWhile hasEq).foldl
        (fun e a => setA e (splitFirstEq a).1 (splitFirstEq a).2) [] ∧
    (splitout_env shlex_split shlex_join command).2 =
      shlex_join ((shlex_split command).dropWhile hasEq) := by
  unfold splitout_env
  simp [collectEnv_eq]

end RunnerBasicTheorems

section QueueProcessorModel

/-- `DEFAULT_RETRY_AFTER` (runner.py line 99). -/
def DEFAULT_RETRY_AFTER : Nat := 120

/-- A value stored in `QueueProcessor.rate_limit_hosts`.  Python is
dynamically typed: the source can store either the raw `retry_after`
integer or a `datetime` deadline; the two are kept apart here because
comparing an `int` against a `datetime` raises `TypeError`. -/
inductive PyTimeVal
  | secs (n : Nat)
  | time (t : Int)
  deriving Repr, DecidableEq

/-- A `run` row as written by `store_run` (runner.py lines 902-998):
the fields the claims observe. -/
structure RunRecord where
  id : String
  package : String
  suite : String
  command : String
  result_code : String
  description : Option String
  branch_url : Option String
  worker_name : Option String
  logfilenames : List String
  deriving Repr, DecidableEq

/-- The queue processor's state: the database's queue and run tables (the
queue modelled from the spec for the absent `state` module, kept in
scheduling priority order), the in-memory active-run registry and the
per-host backoff table. -/
structure RunnerState where
  queue : List QueueItem
  runs : List RunRecord
  active_runs : List (String × ActiveRunLite)
  rate_limit_hosts : List (String × PyTimeVal)
  dry_run : Bool
  deriving Repr, DecidableEq

/-- The characters following the first `//`, if any. -/
def afterDoubleSlash : List Char → Option (List Char)
  | [] => none
  | '/' :: '/' :: rest => some rest
  | _ :: rest => afterDoubleSlash rest

/-- `urlutils.URL.from_string(url).host` for the `scheme://host/path`
URLs the runner sees: the authority component between the `//` and the
next slash. -/
def urlHost (u : String) : String :=
  match afterDoubleSlash u.toList with
  | none => ""
  | some rest => String.mk (rest.takeWhile (fun c => c != '/'))

/-- `QueueProcessor.finish_run` (runner.py lines 1107-1153), returning
the state afterwards together with the uncaught Python error, if one is
raised.  The metrics at lines 1113-1115 evaluate
`result.duration.total_seconds()` before the transaction, and `duration`
is `finish_time - start_time` (line 423): `TypeError` when either
timestamp is `None`, with the state untouched.  Otherwise, unless in
dry-run mode, the run row is inserted (`store_run`, taking package, suite
and command from the queue item and the rest from the result) and the
queue row deleted in one transaction, and the active-run entry dropped.
Then line 1153 calls `followup_run` unguarded: for a `success` result
outside the `unchanged`/`debianize` suites it evaluates
`result.main_branch_revision.decode("utf-8")` (line 1006), an
`AttributeError` when that revision is `None` — raised after the
transaction, so the mutations stay.  Follow-up scheduling itself goes
through the absent `schedule`/`missing_deps` modules (modelled from the
spec: they only insert queue rows with fresh monotonic ids, not tracked
here); metrics and pub/sub events have no state effect. -/
def finish_run (s : RunnerState) (item : QueueItem)
    (result : JanitorResultLite) : RunnerState × Option String :=
  match result.start_time, result.finish_time with
  | some _, some _ =>
    let newRun : RunRecord :=
      ⟨result.log_id, item.package, item.suite, item.command, result.code,
       result.description, result.branch_url, result.worker_name,
       result.logfilenames⟩
    let queue2 := s.queue.filter (fun q => q.id != item.id)
    let s1 :=
      if s.dry_run then s
      else { s with runs := s.runs ++ [newRun], queue := queue2 }
    let reg2 := s1.active_runs.filter (fun p => p.1 != result.log_id)
    let s2 := { s1 with active_runs := reg2 }
    let err : Option String :=
      if result.code == "success" &&
          !(item.suite == "unchanged" || item.suite == "debianize") then
        match result.main_branch_revision with
        | none => some "AttributeError: NoneType has no attribute decode"
        | some _ => none
      else none
    (s2, err)
  | _, _ =>
    (s, some "TypeError: unsupported operand types for -: NoneType")

/-- `QueueProcessor.rate_limited` (runner.py lines 1155-1158).  The
source stores
`retry_after or (datetime.now() + timedelta(seconds=DEFAULT_RETRY_AFTER))`:
when `retry_after` is truthy the raw integer itself is stored; only when
it is `None` (or `0`) is an actual deadline stored. -/
def rate_limited (now : Int) (s : RunnerState) (host : String)
    (retry_after : Option Nat) : RunnerState :=
  let v : PyTimeVal :=
    match retry_after with
    | none => .time (now + (DEFAULT_RETRY_AFTER : Int))
    | some n =>
      if n = 0 then .time (now + (DEFAULT_RETRY_AFTER : Int)) else .secs n
  { s with rate_limit_hosts := setA s.rate_limit_hosts host v }

/-- Python `until > datetime.now()`: defined when the stored entry is a
`datetime`, raises `TypeError` when it is an `int`. -/
def pyAfterNow (v : PyTimeVal) (now : Int) : Except String Bool :=
  match v with
  | .time t => .ok (decide (t > now))
  | .secs _ => .error "TypeError: '>' not supported between int and datetime"

/-- Python truthiness of a stored backoff entry (`if not until`). -/
def PyTimeVal.truthy : PyTimeVal → Bool
  | .secs n => n != 0
  | .time _ => true

/-- `QueueProcessor.is_queue_item_rate_limited` (runner.py lines
1160-1165). -/
def is_queue_item_rate_limited (now : Int) (s : RunnerState)
    (url : Option String) : Except String Bool :=
  match url with
  | none => .error "TypeError: URL.from_string(None)"
  | some u =>
    match lookupA s.rate_limit_hosts (urlHost u) with
    | none => .ok false
    | some v => if v.truthy then pyAfterNow v now else .ok false

/-- `QueueProcessor.is_queue_item_assigned` (runner.py lines
1177-1182). -/
def is_queue_item_assigned (s : RunnerState) (queue_item_id : Nat) : Bool :=
  s.active_runs.any (fun p => p.2.queue_item.id == queue_item_id)

/-- Modelled from the spec: `state.iter_queue(limit)` from the absent
`state` module yields queue rows in scheduling priority order — here the
order of `s.queue` — up to `limit` rows. -/
def iter_queue (s : RunnerState) (limit : Nat) : List QueueItem :=
  s.queue.take limit

/-- The scan inside `next_queue_item`: the first yielded item that is
neither already assigned nor host-rate-limited; a `TypeError` from the
backoff comparison propagates out. -/
def firstEligible (now : Int) (s : RunnerState) :
    List QueueItem → Except String (Option QueueItem)
  | [] => .ok none
  | item :: rest =>
    if is_queue_item_assigned s item.id then firstEligible now s rest
    else
      match is_queue_item_rate_limited now s item.branch_url with
      | .error e => .error e
      | .ok true => firstEligible now s rest
      | .ok false => .ok (some item)

/-- `QueueProcessor.next_queue_item` (runner.py lines 1167-1175). -/
def next_queue_item (now : Int) (s : RunnerState) :
    Except String (Option QueueItem) :=
  firstEligible now s (iter_queue s (s.active_runs.length + 3))

/-- Did the call raise? -/
def isErr {ε α : Type} : Except ε α → Bool
  | .error _ => true
  | .ok _ => false

end QueueProcessorModel

section HostBackoffTheorems

/-- A queue item on host `gitlab.example` used to exercise the backoff
table. -/
def backoffItem : QueueItem :=
  ⟨1, "pkg1", "lintian-fixes", "fix", none,
   some "https://gitlab.example/p", some "git", none, false⟩

/-- Initial processor state holding only `backoffItem`. -/
def backoffState : RunnerState := ⟨[backoffItem], [], [], [], false⟩

/-- Claim C4 (code bug): after a `too-many-requests` with
`retry_after = 30` at time 1000, the code stores the raw integer 30 — not
the deadline 1030 — because the source parenthesizes
`retry_after or (datetime.now() + timedelta(...))`; the subsequent
comparison in `is_queue_item_rate_limited` raises `TypeError`, so
`next_queue_item` errors instead of skipping the host.  Only when
`retry_after` is missing is the deadline `now + DEFAULT_RETRY_AFTER`
stored, and then items on the host really are skipped until it passes. -/
theorem rate_limited_stores_raw_retry_after :
    lookupA (rate_limited 1000 backoffState "gitlab.example"
      (some 30)).rate_limit_hosts "gitlab.example" = some (.secs 30) ∧
    PyTimeVal.secs 30 ≠ PyTimeVal.time (1000 + 30) ∧
    isErr (is_queue_item_rate_limited 1000
      (rate_limited 1000 backoffState "gitlab.example" (some 30))
      (some "https://gitlab.example/p")) = true ∧
    isErr (next_queue_item 1000
      (rate_limited 1000 backoffState "gitlab.example" (some 30))) = true ∧
    lookupA (rate_limited 1000 backoffState "gitlab.example"
      none).rate_limit_hosts "gitlab.example" = some (.time 1120) ∧
    next_queue_item 1000
      (rate_limited 1000 backoffState "gitlab.example" none) = .ok none ∧
    next_queue_item 1121
      (rate_limited 1000 backoffState "gitlab.example" none) =
      .ok (some backoffItem) := by
  refine ⟨?_, by decide, ?_, ?_, ?_, ?_, ?_⟩ <;> rfl

end HostBackoffTheorems

section KeepaliveTheorems

/-- The attribute names defined on `ActiveRun` (runner.py lines 651-780):
the class attribute, the instance attributes assigned in `__init__`, the
properties and the methods. -/
def activeRunAttrs : List String :=
  ["KEEPALIVE_INTERVAL", "log_files", "worker_name", "queue_item",
   "log_id", "start_time", "main_branch_url", "vcs_type",
   "resume_branch_name", "last_keepalive", "_watch_dog",
   "_jenkins_metadata", "worker_link", "current_duration",
   "start_watchdog", "stop_watchdog", "reset_keepalive", "append_log",
   "watchdog", "kill", "list_log_files", "get_log_file", "create_result",
   "json"]

/-- Result of the keepalive handler. -/
inductive KeepaliveOutcome
  | notFound
  | okReset (reg : List (String × ActiveRunLite))
  | attributeError (name : String)
  deriving Repr, DecidableEq

/-- `handle_keepalive` (runner.py lines 1425-1435): 404 for an unknown
run id; otherwise the source invokes `active_run.keepalive()`, which
Python resolves against the attributes defined on `ActiveRun` — the call
only proceeds (resetting the keepalive, which is what `reset_keepalive`
does) if such an attribute exists, and raises `AttributeError`
otherwise. -/
def handle_keepalive (now : Int) (reg : List (String × ActiveRunLite))
    (run_id : String) : KeepaliveOutcome :=
  match lookupA reg run_id with
  | none => .notFound
  | some ar =>
    if activeRunAttrs.contains "keepalive" then
      .okReset (setA reg run_id (ar.reset_keepalive now))
    else .attributeError "keepalive"

/-- The active run used in the keepalive counterexample. -/
def kaAR : ActiveRunLite :=
  ⟨⟨9, "pkg9", "suite9", "cmd", none, none, none, none, false⟩,
   "worker-2", "run-7", 0, 50, none, none⟩

/-- Claim C5 (code bug): for a registered run, the keepalive handler does
not reset `last_keepalive` and answer 200 — it raises `AttributeError`,
because the source calls `active_run.keepalive()` while the method
defined on `ActiveRun` is `reset_keepalive`.  The 404 branch for an
unknown id does behave as claimed. -/
theorem handle_keepalive_attribute_error :
    handle_keepalive 100 [("run-7", kaAR)] "run-7" =
      .attributeError "keepalive" ∧
    handle_keepalive 100 [("run-7", kaAR)] "other-run" = .notFound ∧
    activeRunAttrs.contains "reset_keepalive" = true ∧
    activeRunAttrs.contains "keepalive" = false := by
  refine ⟨rfl, rfl, by decide, by decide⟩

end KeepaliveTheorems

section WatchdogTimeout

/-- `finish_run` as the watchdog invokes it (runner.py line 735):
`queue_processor.finish_run(self, result)` passes the `ActiveRun` object
itself where a queue item is expected.  The first per-item attribute
access — `item.package` in the metrics labels, runner.py line 1110 — is
resolved against the attributes defined on `ActiveRun`, and only if such
an attribute existed could the call proceed; it does not, so
`AttributeError` is raised with nothing stored, no queue row deleted and
the registry entry intact. -/
def finish_run_on_active_run (s : RunnerState) (_item : ActiveRunLite)
    (_result : JanitorResultLite) : RunnerState × Option String :=
  if activeRunAttrs.contains "package" then (s, none)
  else (s, some "AttributeError: ActiveRun object has no attribute package")

/-- The queue item of the watchdog-timeout scenario. -/
def wdItem : QueueItem :=
  ⟨8, "pkgW", "suiteW", "cmdW", none, some "https://w.example/p",
   some "git", none, false⟩

/-- Its active run: registered at time 0 and never sent a keepalive. -/
def wdAR : ActiveRunLite := ⟨wdItem, "worker-3", "log-wd", 0, 0, none, none⟩

/-- Processor state when the watchdog wakes. -/
def wdState : RunnerState := ⟨[wdItem], [], [("log-wd", wdAR)], [], false⟩

/-- Claim C6 (code bug): the watchdog does sleep `KEEPALIVE_INTERVAL`
(= 600 s) between checks, fires exactly when
`now - last_keepalive > 2 * KEEPALIVE_INTERVAL` (at the 1200 s boundary
it stays quiet), and synthesizes a result with code `worker-timeout` —
but it hands `finish_run` the `ActiveRun` object itself instead of the
run's queue item (runner.py line 735), and `finish_run`'s first attribute
access (`item.package`, line 1110) then raises `AttributeError`: the
timeout run is never stored and the queue row survives.  Calling
`finish_run` with the run's queue item — what the claim describes — would
instead commit a `worker-timeout` run and raise nothing. -/
theorem watchdog_timeout_crashes_in_finish_run :
    KEEPALIVE_INTERVAL = 600 ∧
    (wdAR.watchdog_iteration 700).1 = 1300 ∧
    ((wdAR.watchdog_iteration 700).2.map (fun p => (p.1, p.2.code))) =
      some (wdAR, "worker-timeout") ∧
    ({ wdAR with last_keepalive := 100 }.watchdog_iteration 700).2 =
      none ∧
    activeRunAttrs.contains "package" = false ∧
    (match (wdAR.watchdog_iteration 700).2 with
     | some (handed, r) => finish_run_on_active_run wdState handed r
     | none => (wdState, none)) =
      (wdState,
        some "AttributeError: ActiveRun object has no attribute package") ∧
    (match (wdAR.watchdog_iteration 700).2 with
     | some (handed, r) => finish_run wdState handed.queue_item r
     | none => (wdState, none)).2 = none ∧
    (match (wdAR.watchdog_iteration 700).2 with
     | some (handed, r) =>
       (finish_run wdState handed.queue_item r).1.runs.map
         (fun rr => rr.result_code)
     | none => []) = ["worker-timeout"] ∧
    (match (wdAR.watchdog_iteration 700).2 with
     | some (handed, r) => (finish_run wdState handed.queue_item r).1.queue
     | none => [wdItem]) = [] := by
  refine ⟨rfl, rfl, rfl, rfl, by decide, rfl, rfl, rfl, rfl⟩

end WatchdogTimeout

section AssignRateLimited

/-- The `except BranchRateLimited` arm of `handle_assign` (runner.py
lines 1315-1322) together with its `abort` helper (lines 1267-1274):
record host-level backoff for the branch URL's host, abort the active run
through `finish_run` with code `pull-rate-limited`, and answer 429 with a
`Retry-After` header of the hoster's retry value or the default.
Both `none` cases are unreachable: `item.branch_url` is non-`None` on
this path (the `not-in-vcs` check has already been passed), and the
abort's `finish_run` cannot raise, since `create_result` fills both
timestamps and the code is not `success`. -/
def handle_assign_rate_limited (now : Int) (s : RunnerState)
    (ar : ActiveRunLite) (retry_after : Option Nat) (errMsg : String) :
    Option ((Nat × Nat) × RunnerState) :=
  match ar.queue_item.branch_url with
  | none => none
  | some burl =>
    let s1 := rate_limited now s (urlHost burl) retry_after
    let result := ar.create_result now ar.main_branch_url ar.vcs_type
      "pull-rate-limited" (some errMsg)
    match finish_run s1 ar.queue_item result with
    | (_, some _) => none
    | (s2, none) => some ((429, pyOrNat retry_after DEFAULT_RETRY_AFTER), s2)

/-- The queue item assigned in the rate-limited-assignment scenario. -/
def assignItem : QueueItem :=
  ⟨42, "pkgA", "suiteA", "cmd", none, some "https://git.example/a",
   some "git", none, false⟩

/-- Its active run. -/
def assignAR : ActiveRunLite :=
  ⟨assignItem, "w1", "log-42", 500, 500, some "https://git.example/a",
   some "git"⟩

/-- Processor state at the moment the branch open raises
`BranchRateLimited`. -/
def assignState : RunnerState :=
  ⟨[assignItem], [], [("log-42", assignAR)], [], false⟩

end AssignRateLimited

section AssignRateLimitedTheorems

/-- Writing a key into the dict makes it the key's binding. -/
theorem lookupA_setA {α : Type} (l : List (String × α)) (k : String)
    (v : α) : lookupA (setA l k v) k = some v := by
  induction l with
  | nil => simp [setA, lookupA]
  | cons p rest ih =>
    by_cases h : p.1 == k
    · simp [setA, h, lookupA]
    · have hb : (p.1 == k) = false := by simpa using h
      simp only [setA, hb, Bool.false_eq_true, if_false]
      unfold lookupA at ih ⊢
      rw [List.find?_cons_of_neg _ (by simp [hb])]
      exact ih

/-- `finish_run` raises nothing and commits when both timestamps are
present and the result is not a `success` lacking a main-branch
revision: the run row is appended, the queue row removed and the
registry entry dropped. -/
theorem finish_run_ok (s : RunnerState) (item : QueueItem)
    (result : JanitorResultLite) (st ft : Int)
    (hst : result.start_time = some st)
    (hft : result.finish_time = some ft)
    (hmv : result.code = "success" →
      ∃ rev, result.main_branch_revision = some rev)
    (hdry : s.dry_run = false) :
    finish_run s item result =
      (RunnerState.mk (s.queue.filter (fun q => q.id != item.id))
        (s.runs ++ [RunRecord.mk result.log_id item.package item.suite
          item.command result.code result.description result.branch_url
          result.worker_name result.logfilenames])
        (s.active_runs.filter (fun p => p.1 != result.log_id))
        s.rate_limit_hosts s.dry_run, none) := by
  unfold finish_run
  rw [hst, hft]
  dsimp only
  simp only [hdry, Bool.false_eq_true, if_false, Prod.mk.injEq]
  refine ⟨trivial, ?_⟩
  by_cases hcs : result.code = "success"
  · obtain ⟨rev, hrev⟩ := hmv hcs
    rw [hrev]
    dsimp only
    exact ite_self none
  · have hb2 : (result.code == "success") = false :=
      beq_eq_false_iff_ne.mpr hcs
    rw [hb2]
    rfl

/-- Claim C1 counterexample: on `BranchRateLimited` during `/assign` of
queue item 42 (retry_after 30), the queue item IS consumed — a completed
run with code `pull-rate-limited` is stored for it and its queue row is
deleted — contradicting the claim that no run is stored and the row
survives.  (The 429 response with `Retry-After: 30` itself is as
claimed.) -/
theorem assign_rate_limited_consumes_item :
    (handle_assign_rate_limited 1000 assignState assignAR (some 30)
      "too many requests").map
        (fun out => (out.1, out.2.runs.map (fun r => (r.id, r.result_code)),
          out.2.queue)) =
      some ((429, 30), [("log-42", "pull-rate-limited")],
        ([] : List QueueItem)) := by
  rfl

/-- Claim C1 (amended): when opening the main branch during `/assign`
raises `BranchRateLimited`, the runner records a host-backoff entry for
the branch URL's host and responds 429 with a `Retry-After` header equal
to the hoster's retry value or the default; the assignment is aborted
with code `pull-rate-limited` via `finish_run`, which stores a completed
run with that code and deletes the queue row — the queue item IS
consumed. -/
theorem assign_rate_limited_aborts_and_consumes (now : Int)
    (s : RunnerState) (ar : ActiveRunLite) (retry_after : Option Nat)
    (msg : String) (burl : String)
    (hb : ar.queue_item.branch_url = some burl)
    (hdry : s.dry_run = false) :
    ∃ s2 : RunnerState,
      handle_assign_rate_limited now s ar retry_after msg =
        some ((429, pyOrNat retry_after DEFAULT_RETRY_AFTER), s2) ∧
      lookupA s2.rate_limit_hosts (urlHost burl) ≠ none ∧
      (∃ r ∈ s2.runs, r.id = ar.log_id ∧
        r.result_code = "pull-rate-limited" ∧
        r.package = ar.queue_item.package) ∧
      (∀ q ∈ s2.queue, q.id ≠ ar.queue_item.id) := by
  unfold handle_assign_rate_limited
  rw [hb]
  dsimp only
  rw [finish_run_ok _ _ _ ar.start_time now rfl rfl
    (fun h => absurd h (show "pull-rate-limited" ≠ "success" by decide))
    (show (rate_limited now s (urlHost burl) retry_after).dry_run = false
      from hdry)]
  refine ⟨_, rfl, ?_, ?_, ?_⟩
  · unfold rate_limited
    dsimp only
    rw [lookupA_setA]
    simp
  · unfold rate_limited
    dsimp only
    refine ⟨_, List.mem_append_right _ (List.mem_singleton.mpr rfl),
      rfl, rfl, rfl⟩
  · intro q hq
    unfold rate_limited at hq
    dsimp only at hq
    have hq2 := List.of_mem_filter hq
    simpa using hq2

/-- Witness for `assign_rate_limited_aborts_and_consumes` on the concrete
scenario state. -/
theorem assign_rate_limited_aborts_and_consumes_witness :
    ∃ s2 : RunnerState,
      handle_assign_rate_limited 1000 assignState assignAR (some 30)
        "too many requests" = some ((429, 30), s2) ∧
      lookupA s2.rate_limit_hosts (urlHost "https://git.example/a") ≠
        none ∧
      (∃ r ∈ s2.runs, r.id = "log-42" ∧
        r.result_code = "pull-rate-limited" ∧ r.package = "pkgA") ∧
      (∀ q ∈ s2.queue, q.id ≠ 42) :=
  assign_rate_limited_aborts_and_consumes 1000 assignState assignAR
    (some 30) "too many requests" "https://git.example/a" rfl rfl

end AssignRateLimitedTheorems

section FinishHandler

end FinishHandler

section FinishHandlerTheorems

end FinishHandlerTheorems

end Janitor
